import Mathlib

/-!
Verification of the UI component registry (shadcn-style components).

The development shallowly embeds the behavioural parts of the registry
components: the stepper active/completed/disabled state wiring and click
handler, the positional class redistribution of the button group, the engine
lifecycle of the map widget (creation guard and unmount cleanup), the map
route and cluster layer teardown, the list item selection state, the toaster
configuration handed to the toast engine, and the context guards of the map
sub-components.  Class lists are represented as lists of utility-class
tokens; the layer/source registry of the external mapping engine is represented as
lists of string ids.
-/

namespace ShadcnUI

/-! ## Class combination -/

/-- Modelled from the spec: the class-combining helper `cn` of the repository
(lib/utils, a file not included among the sources) joins the utility-class
fragments handed to it into one class list; a falsy argument (produced by a
false `cond && "cls"` expression) contributes nothing.  Each fragment is
represented as the list of its class tokens, a skipped fragment as `[]`. -/
def cn (fragments : List (List String)) : List String := fragments.flatten

/-! ## Stepper

`Stepper` keeps a numeric `activeStep` in state and hands `activeStep`
together with `handleStepChange` to its items through `StepperContext`.
`StepperItem` derives its three flags from `activeStep`, its own `value`, and
its `disabled` prop, and on click calls `setActiveStep(value)` unless the
derived disabled flag is set. -/

structure StepperItemFlags where
  isActive : Bool
  isCompleted : Bool
  isDisabled : Bool
deriving Repr, DecidableEq

/-- The three data flags `StepperItem` derives:
`isActive = (activeStep === value)`, `isCompleted = activeStep > value`,
`isDisabled = disabled || activeStep < value`. -/
def stepperItemFlags (activeStep value : Int) (disabled : Bool) : StepperItemFlags :=
  { isActive := decide (activeStep = value)
    isCompleted := decide (activeStep > value)
    isDisabled := disabled || decide (activeStep < value) }

/-- The click handler of the item: `() => !isDisabled && setActiveStep?.(value)`.
Returns the step passed to the context setter, or `none` when the guard
blocks the call. -/
def stepperItemClick (activeStep value : Int) (disabled : Bool) : Option Int :=
  if (stepperItemFlags activeStep value disabled).isDisabled then none
  else some value

/-- The `handleStepChange` of the stepper: `setActiveStep(step); onChange?.(step)`.
Result: the new `activeStep` and the argument of the `onChange` invocation. -/
def handleStepChange (step : Int) : Int × Option Int := (step, some step)

/-- One click on a `StepperItem` as seen by the enclosing `Stepper`: the new
`activeStep` and the `onChange` invocation (`none` when `onChange` was not
invoked). -/
def stepperClick (activeStep value : Int) (disabled : Bool) : Int × Option Int :=
  match stepperItemClick activeStep value disabled with
  | none => (activeStep, none)
  | some s => handleStepChange s

/-! ## ButtonGroup

`ButtonGroup` maps over its children with `React.Children.map`; a child that
is a valid element is cloned with extra classes merged after its own
`className`, any other child is returned unchanged. -/

/-- A React child as `ButtonGroup` sees it: a valid element carrying its
`className` token list, or any other node (text, `null`, ...). -/
inductive RChild where
  | element (classes : List String)
  | other
deriving Repr, DecidableEq

/-- The classes `ButtonGroup` appends to a valid element child at `index` out
of `count` children, in the order of the `cn` call in the source:
`index === 0 && "rounded-l-md"`, `index === count-1 && "rounded-r-md"`,
`index !== 0 && index !== count-1 && "rounded-none"`,
`pill && index === 0 && "rounded-l-full"`,
`pill && index === count-1 && "rounded-r-full"`,
`index !== 0 && "border-l-0"`. -/
def buttonGroupAddedClasses (pill : Bool) (count index : Nat) : List String :=
  cn [(if index = 0 then ["rounded-l-md"] else []),
      (if index = count - 1 then ["rounded-r-md"] else []),
      (if index ≠ 0 ∧ index ≠ count - 1 then ["rounded-none"] else []),
      (if pill = true ∧ index = 0 then ["rounded-l-full"] else []),
      (if pill = true ∧ index = count - 1 then ["rounded-r-full"] else []),
      (if index ≠ 0 then ["border-l-0"] else [])]

/-- Cloning of one child: a valid element gets
`cn(child.props.className, ...)`, any other child is returned unchanged. -/
def buttonGroupChild (pill : Bool) (count index : Nat) : RChild → RChild
  | RChild.element cls => RChild.element (cls ++ buttonGroupAddedClasses pill count index)
  | RChild.other => RChild.other

/-- Index-carrying traversal mirroring `React.Children.map(children, (child, index) => ...)`. -/
def buttonGroupMapGo (pill : Bool) (count : Nat) : Nat → List RChild → List RChild
  | _, [] => []
  | index, c :: rest =>
      buttonGroupChild pill count index c :: buttonGroupMapGo pill count (index + 1) rest

/-- The children rendered by `ButtonGroup`, where `count` is
`React.Children.count(children)`, i.e. the length of the child list. -/
def ButtonGroup (pill : Bool) (children : List RChild) : List RChild :=
  buttonGroupMapGo pill children.length 0 children

theorem buttonGroupMapGo_get? (pill : Bool) (count : Nat) :
    ∀ (l : List RChild) (j i : Nat),
      (buttonGroupMapGo pill count j l).get? i
        = (l.get? i).map (buttonGroupChild pill count (j + i)) := by
  intro l
  induction l with
  | nil => intro j i; simp [buttonGroupMapGo]
  | cons c rest ih =>
      intro j i
      cases i with
      | zero => simp [buttonGroupMapGo]
      | succ i =>
          simp only [buttonGroupMapGo, List.get?]
          rw [ih (j + 1) i]
          have harith : j + 1 + i = j + (i + 1) := by omega
          rw [harith]

theorem ButtonGroup_get? (pill : Bool) (children : List RChild) (i : Nat) :
    (ButtonGroup pill children).get? i
      = (children.get? i).map (buttonGroupChild pill children.length i) := by
  unfold ButtonGroup
  rw [buttonGroupMapGo_get?]
  simp

/-! ## Claims about the stepper and the button group -/

/-- C4: a `StepperItem` with step value `v` under a `Stepper` whose active
step is `a` is marked active iff `a = v`, completed iff `a > v`, and disabled
iff its `disabled` prop is set or `a < v`. -/
theorem stepperItem_state_spec (a v : Int) (d : Bool) :
    ((stepperItemFlags a v d).isActive = true ↔ a = v) ∧
    ((stepperItemFlags a v d).isCompleted = true ↔ a > v) ∧
    ((stepperItemFlags a v d).isDisabled = true ↔ (d = true ∨ a < v)) := by
  refine ⟨?_, ?_, ?_⟩ <;> simp [stepperItemFlags]

/-- C9: clicking a `StepperItem` whose value exceeds the active step or whose
`disabled` prop is set leaves the active step unchanged and never invokes
`onChange`; a click on a non-disabled item at or below the active step sets
the active step to the value of the item and invokes `onChange` with it, and those
are the only clicks that reach the setter. -/
theorem stepperItem_click_spec (a v : Int) (d : Bool) :
    ((v > a ∨ d = true) → stepperClick a v d = (a, none)) ∧
    (d = false → v ≤ a → stepperClick a v d = (v, some v)) ∧
    (∀ a2 c, stepperClick a v d = (a2, some c) → d = false ∧ v ≤ a ∧ a2 = v ∧ c = v) := by
  refine ⟨?_, ?_, ?_⟩
  · intro h
    have hdis : (stepperItemFlags a v d).isDisabled = true := by
      simp only [stepperItemFlags]
      rcases h with h | h
      · simp [h]
      · simp [h]
    simp [stepperClick, stepperItemClick, hdis]
  · intro hd hle
    have hdis : (stepperItemFlags a v d).isDisabled = false := by
      simp [stepperItemFlags, hd]
      omega
    simp [stepperClick, stepperItemClick, hdis, handleStepChange]
  · intro a2 c h
    by_cases hdis : (stepperItemFlags a v d).isDisabled = true
    · simp [stepperClick, stepperItemClick, hdis] at h
    · have hdis' : (stepperItemFlags a v d).isDisabled = false := by
        simpa using hdis
      simp only [stepperClick, stepperItemClick, hdis', if_neg, Bool.false_eq_true,
        not_false_iff, if_false, handleStepChange] at h
      have hfacts := hdis'
      simp only [stepperItemFlags, Bool.or_eq_false_iff, decide_eq_false_iff_not,
        not_lt] at hfacts
      rw [Prod.mk.injEq, Option.some.injEq] at h
      exact ⟨hfacts.1, hfacts.2, h.1.symm, h.2.symm⟩

/-- Check of `stepperItem_click_spec` at concrete inputs: with active step 2,
clicking value 3 changes nothing, clicking non-disabled value 1 moves to 1. -/
theorem stepperItem_click_spec_check :
    stepperClick 2 3 false = (2, none) ∧ stepperClick 2 1 false = (1, some 1) :=
  ⟨(stepperItem_click_spec 2 3 false).1 (Or.inl (by norm_num)),
   (stepperItem_click_spec 2 1 false).2.1 rfl (by norm_num)⟩

/-- C3: in a `ButtonGroup`, the cloned child at an index keeps its own
classes followed by the positional classes; index 0 receives the
left-rounding class (plus its full variant when `pill`), the last index the
right-rounding class (plus its full variant when `pill`), and a strictly
middle child receives exactly `rounded-none` and `border-l-0` — no rounding
classes. -/
theorem buttonGroup_rounding_spec (pill : Bool) (children : List RChild)
    (i : Nat) (cls : List String)
    (h : children.get? i = some (RChild.element cls)) :
    (ButtonGroup pill children).get? i
        = some (RChild.element (cls ++ buttonGroupAddedClasses pill children.length i)) ∧
    (i = 0 → "rounded-l-md" ∈ buttonGroupAddedClasses pill children.length i
      ∧ (pill = true → "rounded-l-full" ∈ buttonGroupAddedClasses pill children.length i)) ∧
    (i = children.length - 1 →
      "rounded-r-md" ∈ buttonGroupAddedClasses pill children.length i
      ∧ (pill = true → "rounded-r-full" ∈ buttonGroupAddedClasses pill children.length i)) ∧
    (i ≠ 0 → i ≠ children.length - 1 →
      buttonGroupAddedClasses pill children.length i = ["rounded-none", "border-l-0"]) := by
  refine ⟨?_, ?_, ?_, ?_⟩
  · rw [ButtonGroup_get?, h]
    rfl
  · intro h0
    subst h0
    constructor
    · simp [buttonGroupAddedClasses, cn]
    · intro hp
      simp [buttonGroupAddedClasses, cn, hp]
  · intro hlast
    constructor
    · simp [buttonGroupAddedClasses, cn, hlast]
    · intro hp
      simp [buttonGroupAddedClasses, cn, hlast, hp]
  · intro h0 hlast
    simp [buttonGroupAddedClasses, cn, h0, hlast]

/-- Check of `buttonGroup_rounding_spec` on a three-element group: the middle
child receives exactly `rounded-none` and `border-l-0`. -/
theorem buttonGroup_rounding_spec_check :
    (ButtonGroup false [RChild.element [], RChild.element [], RChild.element []]).get? 1
        = some (RChild.element ([] ++ buttonGroupAddedClasses false 3 1)) ∧
    buttonGroupAddedClasses false 3 1 = ["rounded-none", "border-l-0"] := by
  have h := buttonGroup_rounding_spec false
    [RChild.element [], RChild.element [], RChild.element []] 1 [] rfl
  exact ⟨h.1, h.2.2.2 (by decide) (by decide)⟩

/-- C10: a `ButtonGroup` whose child list is a single valid element rounds
that child on both ends — `rounded-l-md` and `rounded-r-md`, plus both full
variants when `pill` — and a child that is not a valid element is returned
unchanged at its position. -/
theorem buttonGroup_single_child_spec (pill : Bool) (cls : List String) :
    ButtonGroup pill [RChild.element cls]
        = [RChild.element (cls ++ (["rounded-l-md"] ++ ["rounded-r-md"]
            ++ (if pill = true then ["rounded-l-full"] else [])
            ++ (if pill = true then ["rounded-r-full"] else [])))] ∧
    (∀ (children : List RChild) (i : Nat), children.get? i = some RChild.other →
      (ButtonGroup pill children).get? i = some RChild.other) := by
  constructor
  · cases pill <;>
      simp [ButtonGroup, buttonGroupMapGo, buttonGroupChild, buttonGroupAddedClasses, cn]
  · intro children i h
    rw [ButtonGroup_get?, h]
    rfl

/-- Check of `buttonGroup_single_child_spec`: a lone valid element in pill
mode gets all four rounding classes, and a non-element child is untouched. -/
theorem buttonGroup_single_child_spec_check :
    ButtonGroup true [RChild.element []]
        = [RChild.element ["rounded-l-md", "rounded-r-md", "rounded-l-full", "rounded-r-full"]] ∧
    (ButtonGroup true [RChild.other]).get? 0 = some RChild.other := by
  have h := buttonGroup_single_child_spec true []
  exact ⟨by simpa using h.1, h.2 [RChild.other] 0 rfl⟩

/-! ## Map context guards

`MapContext` is created with the non-null default object
`{ map: null, isLoaded: false }`, while `MarkerContext` is created with
default `null`.  `useMap` throws when the read context value is falsy;
`MarkerPopup` and `MarkerTooltip` throw when the read marker context is
falsy.  A throwing guard is embedded as an `Except` value. -/

structure MapContextValue where
  map : Option Nat
  isLoaded : Bool
deriving Repr, DecidableEq

/-- Default baked into `createContext`: the object literal
`{ map: null, isLoaded: false }`. -/
def mapContextDefault : MapContextValue := { map := none, isLoaded := false }

/-- Truthiness of a `MapContextValue` under JavaScript boolean coercion.  The
context type is the non-nullable object type `MapContextValue`; its default
and every provider value are object literals, and every JavaScript object is
truthy. -/
def jsObjectTruthy (_ : MapContextValue) : Bool := true

/-- The React `useContext(MapContext)` read: the nearest provider value, or the
context default when no `Map` ancestor provides one. -/
def useContextMap (provided : Option MapContextValue) : MapContextValue :=
  provided.getD mapContextDefault

/-- The `useMap` hook: reads the context and throws
`"useMap must be used within a Map component"` when the read value is falsy
(`if (!context) throw ...`). -/
def useMap (provided : Option MapContextValue) : Except String MapContextValue :=
  let context := useContextMap provided
  if jsObjectTruthy context = false then
    Except.error "useMap must be used within a Map component"
  else Except.ok context

structure MarkerContextValue where
  marker : Option Nat
  markerElement : Option Nat
deriving Repr, DecidableEq

/-- The React `useContext(MarkerContext)` read.  The outer option is presence of a
`MapMarker` provider above; the inner option is the nullable context value
itself (`MarkerContext` has default `null`, a `MapMarker` always provides the
object `{ marker, markerElement }`). -/
def useContextMarker (provided : Option (Option MarkerContextValue)) :
    Option MarkerContextValue :=
  provided.getD none

/-- Context guard at the top of `MarkerPopup`: throw when the read marker
context is falsy (`null`), otherwise use it. -/
def markerPopupContextCheck (provided : Option (Option MarkerContextValue)) :
    Except String MarkerContextValue :=
  match useContextMarker provided with
  | none => Except.error "MarkerPopup must be used within a MapMarker"
  | some context => Except.ok context

/-- Context guard at the top of `MarkerTooltip`. -/
def markerTooltipContextCheck (provided : Option (Option MarkerContextValue)) :
    Except String MarkerContextValue :=
  match useContextMarker provided with
  | none => Except.error "MarkerTooltip must be used within a MapMarker"
  | some context => Except.ok context

/-- C1: the `MarkerPopup` and `MarkerTooltip` guards throw outside a
`MapMarker` and accept every value a `MapMarker` provides — but the `useMap`
guard is unreachable: `MapContext` carries the non-null default object
`{ map: null, isLoaded: false }`, every context value is a truthy object,
and so `useMap` succeeds in every environment, also outside any `Map`. -/
theorem context_guard_spec :
    (∀ p, useMap p = Except.ok (useContextMap p)) ∧
    useMap none = Except.ok mapContextDefault ∧
    (markerPopupContextCheck none).isOk = false ∧
    (∀ v, markerPopupContextCheck (some (some v)) = Except.ok v) ∧
    (∀ v, markerTooltipContextCheck (some (some v)) = Except.ok v) ∧
    (markerTooltipContextCheck none).isOk = false :=
  ⟨fun _ => rfl, rfl, rfl, fun _ => rfl, fun _ => rfl, rfl⟩

/-! ## Map engine lifecycle -/

/-- A value thrown by the engine method `remove()`: an `Error` object carrying a
message, or any other thrown value (for which `error instanceof Error` is
false). -/
inductive JsThrown where
  | jsError (message : String)
  | nonErrorValue
deriving Repr, DecidableEq

/-- The refs and state of one `Map` component:
`mapContainer.current` (present or not), `mapInstance.current` (an engine
handle or `null`), and the `isLoaded` state flag. -/
structure MapRefs where
  hasContainer : Bool
  mapInstance : Option Nat
  isLoaded : Bool
deriving Repr, DecidableEq

/-- One run of the `Map` init effect:
`if (!mapContainer.current || mapInstance.current) return` else create
`new maplibregl.Map(...)` and store it.  `fresh` is the handle the engine
constructor would return; the second component counts engines created by
this run. -/
def mapInitEffect (fresh : Nat) (st : MapRefs) : MapRefs × Nat :=
  if st.hasContainer = false ∨ st.mapInstance.isSome = true then (st, 0)
  else ({ st with mapInstance := some fresh }, 1)

/-- JavaScript `hay.startsWith`-style prefix test on character lists. -/
def charsStartWith : List Char → List Char → Bool
  | _, [] => true
  | [], _ :: _ => false
  | c :: cs, d :: ds => c == d && charsStartWith cs ds

/-- Occurrence of `needle` anywhere in `hay` (character lists). -/
def charsHaveSub : List Char → List Char → Bool
  | [], needle => needle.isEmpty
  | c :: rest, needle => charsStartWith (c :: rest) needle || charsHaveSub rest needle

/-- The JavaScript `s.includes(needle)` test on strings. -/
def jsStringIncludes (s needle : String) : Bool := charsHaveSub s.data needle.data

/-- Outcome of the `Map` unmount cleanup: the refs/state afterwards, whether
`console.error` ran, and whether the error escaped the cleanup. -/
structure MapCleanupResult where
  refs : MapRefs
  logged : Bool
  rethrown : Bool
deriving Repr, DecidableEq

/-- The `Map` unmount cleanup.  When an instance is stored it calls
`remove()` (outcome `removeOutcome`: `none` for normal return, `some t` for a
thrown `t`); the catch logs unless the thrown value is an `Error` whose
message includes `"aborted"`; the finally clears the handle and the loaded
flag.  Nothing is rethrown. -/
def mapCleanup (removeOutcome : Option JsThrown) (st : MapRefs) : MapCleanupResult :=
  match st.mapInstance with
  | none => { refs := st, logged := false, rethrown := false }
  | some _ =>
      let logged :=
        match removeOutcome with
        | some (JsThrown.jsError m) => !(jsStringIncludes m "aborted")
        | some JsThrown.nonErrorValue => false
        | none => false
      { refs := { st with mapInstance := none, isLoaded := false }
        logged := logged
        rethrown := false }

/-- C2: during `Map` unmount cleanup with a stored engine instance, an
`Error` whose message includes `"aborted"` is suppressed without logging, an
`Error` without it is logged; in every case nothing is rethrown, the stored
handle is reset to `null` and the loaded flag to `false`. -/
theorem mapCleanup_spec (st : MapRefs) (h : st.mapInstance.isSome = true) :
    (∀ m, jsStringIncludes m "aborted" = true →
        (mapCleanup (some (JsThrown.jsError m)) st).logged = false) ∧
    (∀ m, jsStringIncludes m "aborted" = false →
        (mapCleanup (some (JsThrown.jsError m)) st).logged = true) ∧
    (∀ r, (mapCleanup r st).rethrown = false
        ∧ (mapCleanup r st).refs.mapInstance = none
        ∧ (mapCleanup r st).refs.isLoaded = false) := by
  obtain ⟨e, he⟩ := Option.isSome_iff_exists.mp h
  refine ⟨?_, ?_, ?_⟩
  · intro m hm
    simp [mapCleanup, he, hm]
  · intro m hm
    simp [mapCleanup, he, hm]
  · intro r
    refine ⟨?_, ?_, ?_⟩ <;> simp [mapCleanup, he]

/-- Check of `mapCleanup_spec` on a loaded map: the abort error is
suppressed, another error is logged, and the handle is cleared. -/
theorem mapCleanup_spec_check :
    (mapCleanup (some (JsThrown.jsError "signal is aborted")) ⟨true, some 0, true⟩).logged = false
      ∧ (mapCleanup (some (JsThrown.jsError "tile fetch failed")) ⟨true, some 0, true⟩).logged = true
      ∧ (mapCleanup none ⟨true, some 0, true⟩).refs.mapInstance = none := by
  have h := mapCleanup_spec ⟨true, some 0, true⟩ rfl
  exact ⟨h.1 "signal is aborted" (by decide), h.2.1 "tile fetch failed" (by decide),
    (h.2.2 none).2.1⟩

/-- C5: the init effect creates an engine only when none is stored —
re-running it with a stored instance is a no-op creating nothing, at most one
engine is created per run — and after unmount cleanup the stored handle is
`null`. -/
theorem map_single_instance_spec (st : MapRefs) (fresh : Nat) :
    (∀ e, st.mapInstance = some e → mapInitEffect fresh st = (st, 0)) ∧
    ((mapInitEffect fresh st).2 ≠ 0 → st.mapInstance = none) ∧
    (mapInitEffect fresh st).2 ≤ 1 ∧
    (∀ r, (mapCleanup r st).refs.mapInstance = none) := by
  refine ⟨?_, ?_, ?_, ?_⟩
  · intro e he
    simp [mapInitEffect, he]
  · intro hcreated
    by_contra hne
    obtain ⟨e, he⟩ := Option.ne_none_iff_exists'.mp hne
    simp [mapInitEffect, he] at hcreated
  · unfold mapInitEffect
    split <;> simp
  · intro r
    unfold mapCleanup
    cases hst : st.mapInstance <;> simp [hst]

/-- Check of `map_single_instance_spec`: re-running the effect with a stored
engine changes nothing, and cleanup clears the handle. -/
theorem map_single_instance_spec_check :
    mapInitEffect 7 ⟨true, some 3, true⟩ = (⟨true, some 3, true⟩, 0)
      ∧ (mapCleanup none ⟨true, some 3, true⟩).refs.mapInstance = none := by
  have h := map_single_instance_spec ⟨true, some 3, true⟩ 7
  exact ⟨h.1 3 rfl, h.2.2.2 none⟩

/-! ## Map route and cluster layer teardown

The mapping engine keeps registries of layer ids and source ids; `addLayer`
and `addSource` throw when the id already exists, `removeLayer` and
`removeSource` throw when it does not.  `MapRoute` adds one source and one
layer (each guarded by an existence check) and its cleanup removes them;
`MapClusterLayer` adds one source and three layers unguarded and its cleanup
removes them, every removal guarded by an existence check. -/

structure MapStyleState where
  layers : List String
  sources : List String
deriving Repr, DecidableEq

def getLayer (st : MapStyleState) (id : String) : Bool := decide (id ∈ st.layers)

def getSource (st : MapStyleState) (id : String) : Bool := decide (id ∈ st.sources)

def addLayer (st : MapStyleState) (id : String) : Except String MapStyleState :=
  if getLayer st id = true then
    Except.error ("Layer with id " ++ id ++ " already exists on this map")
  else Except.ok { st with layers := st.layers ++ [id] }

def addSource (st : MapStyleState) (id : String) : Except String MapStyleState :=
  if getSource st id = true then
    Except.error ("Source with id " ++ id ++ " already exists on this map")
  else Except.ok { st with sources := st.sources ++ [id] }

def removeLayer (st : MapStyleState) (id : String) : Except String MapStyleState :=
  if getLayer st id = true then
    Except.ok { st with layers := st.layers.erase id }
  else Except.error ("The layer " ++ id ++ " does not exist in the map style")

def removeSource (st : MapStyleState) (id : String) : Except String MapStyleState :=
  if getSource st id = true then
    Except.ok { st with sources := st.sources.erase id }
  else Except.error ("The source " ++ id ++ " does not exist in the map style")

/-- A removal the teardown performed, for tracking what was removed and in
which order. -/
inductive TeardownOp where
  | removeLayerOp (id : String)
  | removeSourceOp (id : String)
deriving Repr, DecidableEq

/-- Guarded removal `if (map.getLayer(id)) map.removeLayer(id)` together with
the trace of performed operations. -/
def guardedRemoveLayer (id : String) (st : MapStyleState) :
    Except String (List TeardownOp × MapStyleState) :=
  if getLayer st id = true then
    (removeLayer st id).map fun s => ([TeardownOp.removeLayerOp id], s)
  else Except.ok ([], st)

/-- Guarded removal `if (map.getSource(id)) map.removeSource(id)` together
with the trace of performed operations. -/
def guardedRemoveSource (id : String) (st : MapStyleState) :
    Except String (List TeardownOp × MapStyleState) :=
  if getSource st id = true then
    (removeSource st id).map fun s => ([TeardownOp.removeSourceOp id], s)
  else Except.ok ([], st)

/-- The `MapRoute` effect body: add the source `route-id` unless present,
then the layer `route-layer-id` unless present. -/
def mapRouteEffect (id : String) (st : MapStyleState) : MapStyleState :=
  let sourceId := "route-" ++ id
  let layerId := "route-layer-" ++ id
  let st1 := if getSource st sourceId = true then st
             else { st with sources := st.sources ++ [sourceId] }
  if getLayer st1 layerId = true then st1
  else { st1 with layers := st1.layers ++ [layerId] }

/-- The `MapRoute` unmount cleanup: remove the layer if it exists, then the
source if it exists. -/
def mapRouteCleanup (id : String) (st : MapStyleState) :
    Except String (List TeardownOp × MapStyleState) :=
  match guardedRemoveLayer ("route-layer-" ++ id) st with
  | Except.error e => Except.error e
  | Except.ok (t1, st1) =>
      match guardedRemoveSource ("route-" ++ id) st1 with
      | Except.error e => Except.error e
      | Except.ok (t2, st2) => Except.ok (t1 ++ t2, st2)

/-- The `MapClusterLayer` effect body: add the source `clusters` and the
layers `clusters-layer`, `cluster-count`, `unclustered-point`, all
unguarded. -/
def mapClusterEffect (st : MapStyleState) : Except String MapStyleState :=
  (addSource st "clusters").bind fun st1 =>
  (addLayer st1 "clusters-layer").bind fun st2 =>
  (addLayer st2 "cluster-count").bind fun st3 =>
  addLayer st3 "unclustered-point"

/-- The `MapClusterLayer` unmount cleanup: remove the three layers (point,
count, cluster — each guarded), then the source (guarded). -/
def mapClusterCleanup (st : MapStyleState) :
    Except String (List TeardownOp × MapStyleState) :=
  match guardedRemoveLayer "unclustered-point" st with
  | Except.error e => Except.error e
  | Except.ok (t1, st1) =>
  match guardedRemoveLayer "cluster-count" st1 with
  | Except.error e => Except.error e
  | Except.ok (t2, st2) =>
  match guardedRemoveLayer "clusters-layer" st2 with
  | Except.error e => Except.error e
  | Except.ok (t3, st3) =>
  match guardedRemoveSource "clusters" st3 with
  | Except.error e => Except.error e
  | Except.ok (t4, st4) => Except.ok (t1 ++ t2 ++ t3 ++ t4, st4)

theorem erase_append_singleton {a : String} {l : List String} (h : a ∉ l) :
    (l ++ [a]).erase a = l := by
  rw [List.erase_append_right _ h, List.erase_cons_head, List.append_nil]

theorem guardedRemoveLayer_ok (id : String) (st : MapStyleState) :
    guardedRemoveLayer id st
      = Except.ok (if id ∈ st.layers
          then ([TeardownOp.removeLayerOp id], { st with layers := st.layers.erase id })
          else ([], st)) := by
  unfold guardedRemoveLayer removeLayer getLayer
  by_cases h : id ∈ st.layers <;> simp [h, Except.map]

theorem guardedRemoveSource_ok (id : String) (st : MapStyleState) :
    guardedRemoveSource id st
      = Except.ok (if id ∈ st.sources
          then ([TeardownOp.removeSourceOp id], { st with sources := st.sources.erase id })
          else ([], st)) := by
  unfold guardedRemoveSource removeSource getSource
  by_cases h : id ∈ st.sources <;> simp [h, Except.map]

theorem guardedRemoveLayer_ex (id : String) (st : MapStyleState) :
    ∃ r, guardedRemoveLayer id st = Except.ok r := by
  rw [guardedRemoveLayer_ok]
  exact ⟨_, rfl⟩

theorem guardedRemoveSource_ex (id : String) (st : MapStyleState) :
    ∃ r, guardedRemoveSource id st = Except.ok r := by
  rw [guardedRemoveSource_ok]
  exact ⟨_, rfl⟩

theorem mapRouteCleanup_isOk (id : String) (s : MapStyleState) :
    (mapRouteCleanup id s).isOk = true := by
  obtain ⟨⟨t1, s1⟩, e1⟩ := guardedRemoveLayer_ex ("route-layer-" ++ id) s
  obtain ⟨⟨t2, s2⟩, e2⟩ := guardedRemoveSource_ex ("route-" ++ id) s1
  simp only [mapRouteCleanup, e1, e2, Except.isOk, Except.toBool]

theorem mapClusterCleanup_isOk (s : MapStyleState) :
    (mapClusterCleanup s).isOk = true := by
  obtain ⟨⟨t1, s1⟩, e1⟩ := guardedRemoveLayer_ex "unclustered-point" s
  obtain ⟨⟨t2, s2⟩, e2⟩ := guardedRemoveLayer_ex "cluster-count" s1
  obtain ⟨⟨t3, s3⟩, e3⟩ := guardedRemoveLayer_ex "clusters-layer" s2
  obtain ⟨⟨t4, s4⟩, e4⟩ := guardedRemoveSource_ex "clusters" s3
  simp only [mapClusterCleanup, e1, e2, e3, e4, Except.isOk, Except.toBool]

/-- C6: teardown of `MapRoute` and `MapClusterLayer` never throws (every
removal is guarded by an existence check), and on an engine state that did
not already contain the ids of the component, mount followed by unmount removes
exactly the layers and source the component added — each layer removed
before the source — and restores the original engine state. -/
theorem mapLayer_teardown_spec (id : String) (st : MapStyleState)
    (h1 : ("route-layer-" ++ id) ∉ st.layers) (h2 : ("route-" ++ id) ∉ st.sources)
    (h3 : "clusters-layer" ∉ st.layers) (h4 : "cluster-count" ∉ st.layers)
    (h5 : "unclustered-point" ∉ st.layers) (h6 : "clusters" ∉ st.sources) :
    (∀ s, (mapRouteCleanup id s).isOk = true) ∧
    (∀ s, (mapClusterCleanup s).isOk = true) ∧
    mapRouteCleanup id (mapRouteEffect id st)
      = Except.ok ([TeardownOp.removeLayerOp ("route-layer-" ++ id),
                    TeardownOp.removeSourceOp ("route-" ++ id)], st) ∧
    (mapClusterEffect st).bind mapClusterCleanup
      = Except.ok ([TeardownOp.removeLayerOp "unclustered-point",
                    TeardownOp.removeLayerOp "cluster-count",
                    TeardownOp.removeLayerOp "clusters-layer",
                    TeardownOp.removeSourceOp "clusters"], st) := by
  refine ⟨fun s => mapRouteCleanup_isOk id s, fun s => mapClusterCleanup_isOk s, ?_, ?_⟩
  · have heff : mapRouteEffect id st
        = { st with layers := st.layers ++ ["route-layer-" ++ id],
                    sources := st.sources ++ ["route-" ++ id] } := by
      unfold mapRouteEffect
      simp [getSource, getLayer, h1, h2]
    have her_l := erase_append_singleton h1
    have her_s := erase_append_singleton h2
    rw [heff]
    simp [mapRouteCleanup, guardedRemoveLayer_ok, guardedRemoveSource_ok, her_l, her_s]
  · have heff2 : mapClusterEffect st
        = Except.ok { st with
            layers := ((st.layers ++ ["clusters-layer"]) ++ ["cluster-count"])
                        ++ ["unclustered-point"],
            sources := st.sources ++ ["clusters"] } := by
      unfold mapClusterEffect addSource addLayer getSource getLayer
      simp [h3, h4, h5, h6, Except.bind]
    have g1 : (st.layers
          ++ ["clusters-layer", "cluster-count", "unclustered-point"]).erase "unclustered-point"
        = st.layers ++ ["clusters-layer", "cluster-count"] := by
      rw [List.erase_append_right _ h5]
      rfl
    have g2 : (st.layers ++ ["clusters-layer", "cluster-count"]).erase "cluster-count"
        = st.layers ++ ["clusters-layer"] := by
      rw [List.erase_append_right _ h4]
      rfl
    have g3 : (st.layers ++ ["clusters-layer"]).erase "clusters-layer" = st.layers :=
      erase_append_singleton h3
    have e_src : (st.sources ++ ["clusters"]).erase "clusters" = st.sources :=
      erase_append_singleton h6
    rw [heff2]
    simp [Except.bind, mapClusterCleanup, guardedRemoveLayer_ok, guardedRemoveSource_ok,
      g1, g2, g3, e_src]

/-- Check of `mapLayer_teardown_spec` on an empty engine state: mounting then
unmounting a route removes its layer, then its source, and restores the
state. -/
theorem mapLayer_teardown_spec_check :
    mapRouteCleanup "r" (mapRouteEffect "r" ⟨[], []⟩)
      = Except.ok ([TeardownOp.removeLayerOp "route-layer-r",
                    TeardownOp.removeSourceOp "route-r"], ⟨[], []⟩) := by
  have h := mapLayer_teardown_spec "r" ⟨[], []⟩
    (by simp) (by simp) (by simp) (by simp) (by simp) (by simp)
  simpa using h.2.2.1

/-! ## ListItem -/

/-- The class list `ListItem` computes, in the order of the `cn` call in the
source; `className` is the caller-supplied extra class prop (empty when the
prop is not passed). -/
def listItemClasses (selected disabled : Bool) (className : List String) : List String :=
  cn [["flex", "items-center", "gap-3", "rounded-md", "px-3", "py-2", "text-sm",
       "transition-colors"],
      ["hover:bg-accent", "hover:text-accent-foreground"],
      ["focus-visible:ring-ring", "focus-visible:ring-2", "focus-visible:ring-offset-2",
       "focus-visible:outline-none"],
      (if selected = true then ["bg-accent", "text-accent-foreground"] else []),
      (if disabled = true then ["pointer-events-none", "opacity-50"] else []),
      className]

/-- The rendered `data-selected` attribute: React stringifies the boolean
prop. -/
def listItemDataSelected (selected : Bool) : String :=
  if selected = true then "true" else "false"

/-- C7: a `ListItem` with `selected` set renders `data-selected="true"` and
carries the selected visual classes `bg-accent` and `text-accent-foreground`;
with `selected` unset (the default) it renders `data-selected="false"` and
the component contributes neither class. -/
theorem listItem_selected_spec (disabled : Bool) :
    listItemDataSelected true = "true" ∧
    "bg-accent" ∈ listItemClasses true disabled [] ∧
    "text-accent-foreground" ∈ listItemClasses true disabled [] ∧
    listItemDataSelected false = "false" ∧
    (listItemClasses false disabled []).contains "bg-accent" = false ∧
    (listItemClasses false disabled []).contains "text-accent-foreground" = false := by
  cases disabled <;> decide

/-! ## Toaster

The `Toaster` host renders the toast engine element as
`<Sonner theme={theme} className=... icons={...} style=... {...props} />`;
the props of the caller are spread last and therefore override the explicitly
written attributes. -/

/-- The five status icons passed to the toast engine, named by their icon
components. -/
structure ToastIcons where
  success : String
  info : String
  warning : String
  error : String
  loading : String
deriving Repr, DecidableEq

/-- The icon configuration written in the `icons={...}` attribute. -/
def toasterIcons : ToastIcons :=
  { success := "CircleCheckIcon"
    info := "InfoIcon"
    warning := "TriangleAlertIcon"
    error := "OctagonXIcon"
    loading := "Loader2Icon" }

/-- The configuration the toast engine element ends up receiving. -/
structure SonnerProps where
  theme : String
  icons : ToastIcons
deriving Repr, DecidableEq

/-- Caller-supplied `ToasterProps` fields that collide with the attributes
the component writes itself; `none` stands for an absent prop. -/
structure ToasterOverrideProps where
  theme : Option String
  icons : Option ToastIcons
deriving Repr, DecidableEq

/-- One render of `Toaster`: `const { theme = "system" } = useTheme()`, then
the engine element receives `theme={theme}` and `icons={...}`, with
`{...props}` spread afterwards, so each prop the caller passed wins over the
written attribute. -/
def Toaster (hookTheme : Option String) (props : ToasterOverrideProps) : SonnerProps :=
  let theme := hookTheme.getD "system"
  { theme := props.theme.getD theme
    icons := props.icons.getD toasterIcons }

/-- C8 counterexample: a render whose caller passes `theme="light"` while the
theme hook yields `dark` hands the engine `light`, not the resolved theme
`dark` — the props spread comes after the `theme` attribute. -/
theorem toaster_theme_override_cex :
    (Toaster (some "dark") { theme := some "light", icons := none }).theme = "light" ∧
    (Toaster (some "dark") { theme := none, icons := none }).theme = "dark" :=
  ⟨rfl, rfl⟩

/-- C8 amended: when the caller does not pass `theme` or `icons` props
themselves, every render of `Toaster` hands the toast engine the resolved
theme — defaulting to `system` when the theme hook yields none — and an icon
for each of the five statuses. -/
theorem toaster_config_spec (hookTheme : Option String) :
    (Toaster hookTheme { theme := none, icons := none }).theme = hookTheme.getD "system" ∧
    (Toaster hookTheme { theme := none, icons := none }).icons.success = "CircleCheckIcon" ∧
    (Toaster hookTheme { theme := none, icons := none }).icons.info = "InfoIcon" ∧
    (Toaster hookTheme { theme := none, icons := none }).icons.warning = "TriangleAlertIcon" ∧
    (Toaster hookTheme { theme := none, icons := none }).icons.error = "OctagonXIcon" ∧
    (Toaster hookTheme { theme := none, icons := none }).icons.loading = "Loader2Icon" := by
  cases hookTheme <;> exact ⟨rfl, rfl, rfl, rfl, rfl, rfl⟩

end ShadcnUI
